import Mathlib

namespace EmbyIPLimit

/-- Python `str.strip()` as used in `monitor.py` (leading/trailing whitespace removed). -/
def pyStrip (s : String) : String :=
  ⟨((s.data.dropWhile Char.isWhitespace).reverse.dropWhile Char.isWhitespace).reverse⟩

/-- Python `str.lower()` as used in `monitor.py` (character-wise lowercasing). -/
def pyLower (s : String) : String :=
  ⟨s.data.map Char.toLower⟩

/-- IP extraction from `_record_session_start` line 51:
`session.get('RemoteEndPoint', '').split(':')[0]` — the prefix of the endpoint
string before the first colon (the whole string when no colon, empty on a
missing field). -/
def extractIp (rep : Option String) : String :=
  ⟨(rep.getD "").data.takeWhile (fun c => c ≠ ':')⟩

/-- Whitelist preprocessing from `EmbyMonitor.__init__` lines 16-18:
`[name.strip().lower() for name in config['security']['whitelist'] if name.strip()]`. -/
def mkWhitelist (names : List String) : List String :=
  (names.filter (fun n => pyStrip n ≠ "")).map (fun n => pyLower (pyStrip n))

/-- Raw session descriptor as fetched from the media server
(`current_sessions` values in `monitor.py`). Fields the monitor reads; a
`none` models a missing dictionary key. -/
structure RawSession where
  Id : Option String
  UserId : Option String
  RemoteEndPoint : Option String
  DeviceName : Option String
  Client : Option String
  NowPlayingItem : Option String
  deriving DecidableEq, Repr

/-- The `session_data` record built in `_record_session_start` lines 66-76
and stored in `active_sessions`. -/
structure SessionData where
  session_id : String
  user_id : String
  username : String
  ip : String
  device : String
  client : String
  media : String
  start_time : Int
  location : String
  deriving DecidableEq, Repr

/-- Environment of external collaborators: the Emby client (`get_user_info`,
`parse_media_info`), the geo-IP HTTP lookup inside `_get_location`, the
database (`record_session_start` / `record_session_end` may raise; the model
records whether they do), the security client (`disable_user` returns a Bool
and never raises), and the wall clock. -/
structure Env where
  getUserInfo : String → Except Unit (Option String)
  parseMediaInfo : Option String → String
  geoResolve : String → String
  recordStartFails : String → Bool
  recordEndFails : String → Bool
  disableUser : String → Bool
  now : Int

/-- Monitor configuration derived in `EmbyMonitor.__init__` lines 16-23:
the preprocessed whitelist and the security/notification settings. -/
structure Monitor where
  whitelist : List String
  auto_disable : Bool
  alert_threshold : Int
  alerts_enabled : Bool

/-- The in-memory `active_sessions` dict: an association list from session id
to its stored record, in insertion order. -/
abbrev MState := List (String × SessionData)

/-- Dict lookup `self.active_sessions[sid]` / `sid in self.active_sessions`. -/
def lookupSession (st : MState) (sid : String) : Option SessionData :=
  (List.find? (fun p => p.1 = sid) st).map Prod.snd

/-- Dict assignment `self.active_sessions[k] = v`: replace in place when the
key exists, append otherwise. -/
def insertSession (st : MState) (sid : String) (d : SessionData) : MState :=
  if st.any (fun p => p.1 = sid) then
    st.map (fun p => if p.1 = sid then (sid, d) else p)
  else st ++ [(sid, d)]

/-- Dict deletion `del self.active_sessions[sid]`. -/
def eraseSession (st : MState) (sid : String) : MState :=
  st.filter (fun p => p.1 ≠ sid)

/-- Observable collaborator calls made by the monitor during a tick.
`webhookCall` models an invocation of `WebhookNotifier.send_ban_notification`;
`alertTriggered` marks entry into `_trigger_alert`; `alertLogged` is the
console alert message of `_trigger_alert` lines 159-168; `securityLogCall`
is the `db.log_security_event` call made by `_log_security_action` with the
`action` field it builds. -/
inductive Event where
  | recordStartCall (sid : String) (d : SessionData)
  | recordEndCall (sid : String) (duration : Int)
  | alertTriggered (uid ip : String) (count : Nat)
  | alertLogged (username ip : String) (count : Nat)
  | disableCall (uid : String) (result : Bool)
  | securityLogCall (uid username ip : String) (count : Nat) (action : String)
  | webhookCall (uid : String)
  deriving DecidableEq, Repr

/-- Location resolution `_get_location` lines 104-132: empty IP yields the
fixed placeholder; otherwise the HTTP lookup result (the function catches
every exception internally and always returns a string, so the lookup is a
total collaborator function). -/
def getLocation (env : Env) (ip : String) : String :=
  if ip = "" then "未知位置" else env.geoResolve ip

/-- The record built at `_record_session_start` lines 66-76. -/
def mkSessionData (env : Env) (raw : RawSession) (sid uid uname ip : String) :
    SessionData :=
  { session_id := sid
    user_id := uid
    username := uname
    ip := ip
    device := raw.DeviceName.getD "未知设备"
    client := raw.Client.getD "未知客户端"
    media := env.parseMediaInfo raw.NowPlayingItem
    start_time := env.now
    location := getLocation env ip }

/-- Distinct IP addresses of the user's active sessions other than `new_ip`:
the set `existing_ips` built in `_check_login_abnormality` lines 139-142. -/
def userOtherIps (st : MState) (uid new_ip : String) : List String :=
  (((st.map Prod.snd).filter (fun s => s.user_id = uid ∧ s.ip ≠ new_ip)).map
    SessionData.ip).dedup

/-- Size of the `existing_ips` set (`len(existing_ips)`). -/
def distinctOtherIPs (st : MState) (uid new_ip : String) : Nat :=
  (userOtherIps st uid new_ip).length

/-- The `_trigger_alert` handler, lines 147-174: re-resolve the username,
re-check the whitelist, log the alert, and when auto-disable is on call
`disable_user`; only a `True` result leads to `_log_security_action`
(lines 176-189), which calls `db.log_security_event` with `action='DISABLE'`.
Every exception inside is caught (line 173), so a failing `get_user_info`
produces no action at all. No code path invokes the webhook notifier. -/
def triggerAlert (env : Env) (m : Monitor) (uid trigger_ip : String)
    (session_count : Nat) : List Event :=
  match env.getUserInfo uid with
  | .error _ => []
  | .ok nameOpt =>
    let uname := pyStrip (nameOpt.getD "未知用户")
    if pyLower uname ∈ m.whitelist then []
    else
      Event.alertLogged uname trigger_ip session_count ::
        (if m.auto_disable then
          let ok := env.disableUser uid
          Event.disableCall uid ok ::
            (if ok then
              [Event.securityLogCall uid uname trigger_ip session_count "DISABLE"]
            else [])
        else [])

/-- The `_check_login_abnormality` check, lines 134-145: nothing when alerts
are disabled; otherwise `_trigger_alert` is invoked exactly when
`len(existing_ips) >= alert_threshold - 1`, with `len(existing_ips) + 1` as
the session count. -/
def checkLoginAbnormality (env : Env) (m : Monitor) (st : MState)
    (uid new_ip : String) : List Event :=
  if ¬ m.alerts_enabled then []
  else if (distinctOtherIPs st uid new_ip : Int) ≥ m.alert_threshold - 1 then
    Event.alertTriggered uid new_ip (distinctOtherIPs st uid new_ip + 1) ::
      triggerAlert env m uid new_ip (distinctOtherIPs st uid new_ip + 1)
  else []

/-- The `_record_session_start` handler, lines 46-87. Faithful control flow:
a missing `UserId` or `Id` key raises `KeyError`, caught at line 84; a raise
from `get_user_info` or from `db.record_session_start` is caught at line 86.
The insertion into `active_sessions` (line 79) and the abnormality check
(line 83) come after the database call, so they are skipped when it raises.
A whitelisted username returns at line 57 before any of that. -/
def recordSessionStart (env : Env) (m : Monitor) (st : MState)
    (raw : RawSession) : MState × List Event :=
  match raw.UserId with
  | none => (st, [])
  | some uid =>
    match env.getUserInfo uid with
    | .error _ => (st, [])
    | .ok nameOpt =>
      let ip := extractIp raw.RemoteEndPoint
      let uname := pyStrip (nameOpt.getD "未知用户")
      if pyLower uname ∈ m.whitelist then (st, [])
      else
        match raw.Id with
        | none => (st, [])
        | some sid =>
          let d := mkSessionData env raw sid uid uname ip
          if env.recordStartFails sid then (st, [Event.recordStartCall sid d])
          else
            let st' := insertSession st sid d
            (st', Event.recordStartCall sid d ::
              checkLoginAbnormality env m st' uid ip)

/-- The `_record_session_end` handler, lines 89-102: an absent id raises
`KeyError`, caught at line 99 as a no-op; otherwise `db.record_session_end`
is called, and only when it does not raise does control reach the `del` at
line 98 — a raise is caught at line 101 with the session left in the map. -/
def recordSessionEnd (env : Env) (st : MState) (sid : String) :
    MState × List Event :=
  match lookupSession st sid with
  | none => (st, [])
  | some d =>
    let duration := env.now - d.start_time
    if env.recordEndFails sid then (st, [Event.recordEndCall sid duration])
    else (eraseSession st sid, [Event.recordEndCall sid duration])

/-- The loop of `_detect_new_sessions`, lines 34-38: every fetched entry
whose key is not in `active_sessions` goes through `_record_session_start`,
with the map evolving as the iteration proceeds. -/
def detectNew (env : Env) (m : Monitor) :
    MState → List (String × RawSession) → MState × List Event
  | st, [] => (st, [])
  | st, (k, raw) :: rest =>
    if (lookupSession st k).isSome then detectNew env m st rest
    else
      let r1 := recordSessionStart env m st raw
      let r2 := detectNew env m r1.1 rest
      (r2.1, r1.2 ++ r2.2)

/-- Sequential `_record_session_end` calls over a list of ended ids
(the loop of `_detect_ended_sessions`, lines 43-44). -/
def endSessions (env : Env) : MState → List String → MState × List Event
  | st, [] => (st, [])
  | st, sid :: rest =>
    let r1 := recordSessionEnd env st sid
    let r2 := endSessions env r1.1 rest
    (r2.1, r1.2 ++ r2.2)

/-- The `_detect_ended_sessions` handler, lines 40-44: the set difference
`active_sessions.keys() - current_sessions.keys()`, each element passed to
`_record_session_end` (iteration order over a Python set is arbitrary; the
model takes map order). -/
def detectEnded (env : Env) (st : MState)
    (cur : List (String × RawSession)) : MState × List Event :=
  endSessions env st
    ((st.map Prod.fst).filter (fun sid => ¬ cur.any (fun c => c.1 = sid)))

/-- One tick, `process_sessions` lines 25-32: a raise from
`get_active_sessions` is caught with nothing else having run, leaving the
map untouched; a successful fetch is diffed for new then ended sessions. -/
def processSessions (env : Env) (m : Monitor) (st : MState)
    (fetch : Except Unit (List (String × RawSession))) : MState × List Event :=
  match fetch with
  | .error _ => (st, [])
  | .ok cur =>
    let r1 := detectNew env m st cur
    let r2 := detectEnded env r1.1 cur
    (r2.1, r1.2 ++ r2.2)

/-- What happens during one iteration of the `run` loop (lines 191-201), as
seen from the `try` that wraps the whole `while`: `normal` means nothing
escaped the loop body (exceptions inside `process_sessions` are caught there,
so a failed tick is still a `normal` iteration); `raiseExc` means an
`Exception` escaped the loop body (e.g. raised by `time.sleep` or the config
lookup); `raiseInterrupt` is a `KeyboardInterrupt`. -/
inductive IterEvent where
  | normal
  | raiseExc
  | raiseInterrupt
  deriving DecidableEq, Repr

/-- How the `run` loop stopped: `shutdown` via the `KeyboardInterrupt`
handler (line 198), `abnormal` via the `except Exception` handler (line 200),
`fuelOut` when the modelled schedule of iterations ran out (the loop is
still running). -/
inductive StopReason where
  | shutdown
  | abnormal
  | fuelOut
  deriving DecidableEq, Repr

/-- The `run` loop, lines 191-201, over a finite schedule of iteration
outcomes: returns the number of completed iterations and how the loop
stopped. The `try/except` is outside the `while`, so both handlers
terminate the loop. -/
def runLoop : List IterEvent → Nat × StopReason
  | [] => (0, StopReason.fuelOut)
  | IterEvent.normal :: rest =>
    let r := runLoop rest
    (r.1 + 1, r.2)
  | IterEvent.raiseExc :: _ => (0, StopReason.abnormal)
  | IterEvent.raiseInterrupt :: _ => (0, StopReason.shutdown)

/-- Key/value agreement invariant of `active_sessions`: every stored record's
`session_id` equals its key. -/
def goodState (st : MState) : Prop :=
  ∀ p ∈ st, (Prod.snd p).session_id = p.1

instance (st : MState) : Decidable (goodState st) :=
  inferInstanceAs (Decidable (∀ p ∈ st, (Prod.snd p).session_id = p.1))

/-- Recogniser for webhook invocations in a trace. -/
def isWebhookCall : Event → Bool
  | Event.webhookCall _ => true
  | _ => false

/-- Benign collaborator environment for concrete scenarios: user resolution
always yields name `alice`, no database call raises, `disable_user` reports
failure, the clock reads 100. -/
def envBase : Env :=
  { getUserInfo := fun _ => Except.ok (some "alice")
    parseMediaInfo := fun _ => "MediaX"
    geoResolve := fun _ => "Loc"
    recordStartFails := fun _ => false
    recordEndFails := fun _ => false
    disableUser := fun _ => false
    now := 100 }

/-- Environment in which `db.record_session_start` raises on every call. -/
def envStartFail : Env := { envBase with recordStartFails := fun _ => true }

/-- Environment in which `db.record_session_end` raises on every call. -/
def envEndFail : Env := { envBase with recordEndFails := fun _ => true }

/-- Environment in which `disable_user` reports confirmed success. -/
def envDisableOk : Env := { envBase with disableUser := fun _ => true }

/-- Baseline configuration: empty whitelist, auto-disable off, threshold 2,
alerts enabled. -/
def mBase : Monitor :=
  { whitelist := mkWhitelist []
    auto_disable := false
    alert_threshold := 2
    alerts_enabled := true }

/-- Configuration with `alert_threshold = 1` (the smallest value the
documented validation admits) and alerts enabled. -/
def mThresh1 : Monitor := { mBase with alert_threshold := 1 }

/-- Configuration with auto-disable enabled. -/
def mAuto : Monitor := { mBase with auto_disable := true }

/-- Configuration whose whitelist was built from the raw name `  Admin `. -/
def mWhite : Monitor := { mBase with whitelist := mkWhitelist ["  Admin "] }

/-- Environment whose user resolution yields the display name ` aDmIn  `. -/
def envAdmin : Env :=
  { envBase with getUserInfo := fun _ => Except.ok (some " aDmIn  ") }

/-- Concrete fetched session `s1` of user `u1` from endpoint `1.1.1.1:42`. -/
def rawS1 : RawSession :=
  { Id := some "s1"
    UserId := some "u1"
    RemoteEndPoint := some "1.1.1.1:42"
    DeviceName := none
    Client := none
    NowPlayingItem := none }

/-- Fetched session record lacking the required `UserId` field. -/
def rawNoUser : RawSession := { rawS1 with Id := some "sX", UserId := none }

/-- Stored record of an earlier session `s0` of user `u1` at IP `9.9.9.9`. -/
def dS0 : SessionData :=
  { session_id := "s0"
    user_id := "u1"
    username := "alice"
    ip := "9.9.9.9"
    device := "dev0"
    client := "cli0"
    media := "m0"
    start_time := 50
    location := "L0" }

/-- Stored record of a session `s2` of user `u1` at IP `1.1.1.1`. -/
def dS2 : SessionData :=
  { dS0 with session_id := "s2", ip := "1.1.1.1", start_time := 60 }

/-- Stored record of a second session `s2b` of user `u1`, same IP as `s2`. -/
def dS2b : SessionData :=
  { dS2 with session_id := "s2b", device := "dev1", start_time := 70 }

section Helpers

/-- `_trigger_alert` never emits an `alertTriggered` marker of its own: that
marker is produced only at the call site in `_check_login_abnormality`. -/
theorem alertTriggered_notin_triggerAlert (env : Env) (m : Monitor)
    (uid ip : String) (n : Nat) (a b : String) (c : Nat) :
    Event.alertTriggered a b c ∉ triggerAlert env m uid ip n := by
  unfold triggerAlert
  cases henv : env.getUserInfo uid with
  | error e => simp
  | ok nameOpt =>
    by_cases hwl : pyLower (pyStrip (nameOpt.getD "未知用户")) ∈ m.whitelist
    · simp [hwl]
    · by_cases had : m.auto_disable = true
      · by_cases hok : env.disableUser uid = true <;> simp [hwl, had, hok]
      · simp [hwl, had]

/-- `_trigger_alert` never makes a webhook call: no code path in
`monitor.py` invokes `WebhookNotifier.send_ban_notification`. -/
theorem no_webhook_in_triggerAlert (env : Env) (m : Monitor)
    (uid ip : String) (n : Nat) :
    ∀ e ∈ triggerAlert env m uid ip n, isWebhookCall e = false := by
  unfold triggerAlert
  cases henv : env.getUserInfo uid with
  | error e => simp
  | ok nameOpt =>
    by_cases hwl : pyLower (pyStrip (nameOpt.getD "未知用户")) ∈ m.whitelist
    · simp [hwl]
    · by_cases had : m.auto_disable = true
      · by_cases hok : env.disableUser uid = true <;>
          simp [hwl, had, hok, isWebhookCall]
      · simp [hwl, had, isWebhookCall]

/-- Membership of the `alertTriggered` marker in the output of
`_check_login_abnormality` characterises exactly when and with which count
`_trigger_alert` is invoked. -/
theorem alertTriggered_mem_check_iff (env : Env) (m : Monitor) (st : MState)
    (uid ip : String) (c : Nat) :
    Event.alertTriggered uid ip c ∈ checkLoginAbnormality env m st uid ip ↔
      (m.alerts_enabled = true ∧
        (distinctOtherIPs st uid ip : Int) ≥ m.alert_threshold - 1 ∧
        c = distinctOtherIPs st uid ip + 1) := by
  cases hen : m.alerts_enabled with
  | false => simp [checkLoginAbnormality, hen]
  | true =>
    by_cases hge : (distinctOtherIPs st uid ip : Int) ≥ m.alert_threshold - 1
    · simp [checkLoginAbnormality, hen, hge,
        alertTriggered_notin_triggerAlert]
    · simp [checkLoginAbnormality, hen, hge]

/-- Erasing a key makes it unfindable. -/
theorem lookupSession_eraseSession (st : MState) (sid : String) :
    lookupSession (eraseSession st sid) sid = none := by
  unfold lookupSession eraseSession
  rw [Option.map_eq_none', List.find?_eq_none]
  intro p hp
  have h2 := List.of_mem_filter hp
  simp at h2 ⊢
  exact h2

/-- Dict assignment preserves the key/value agreement invariant when the
stored record carries its own key. -/
theorem goodState_insertSession {st : MState} {sid : String} {d : SessionData}
    (h : goodState st) (hd : d.session_id = sid) :
    goodState (insertSession st sid d) := by
  unfold insertSession
  split
  · intro p hp
    rcases List.mem_map.mp hp with ⟨q, hq, rfl⟩
    by_cases hqs : q.1 = sid
    · simp [hqs, hd]
    · simpa [hqs] using h q hq
  · intro p hp
    rcases List.mem_append.mp hp with h1 | h1
    · exact h p h1
    · rcases List.mem_singleton.mp h1 with rfl
      exact hd

/-- Dict deletion preserves the key/value agreement invariant. -/
theorem goodState_eraseSession {st : MState} (sid : String)
    (h : goodState st) : goodState (eraseSession st sid) := by
  intro p hp
  exact h p (List.mem_of_mem_filter hp)

/-- `_record_session_start` preserves the key/value agreement invariant: the
only insertion stores the record under its own `session_id`. -/
theorem goodState_recordSessionStart (env : Env) (m : Monitor) (st : MState)
    (raw : RawSession) (h : goodState st) :
    goodState (recordSessionStart env m st raw).1 := by
  unfold recordSessionStart
  split
  · exact h
  · split
    · exact h
    · dsimp only
      split
      · exact h
      · split
        · exact h
        · split
          · exact h
          · exact goodState_insertSession h rfl

/-- `_record_session_end` preserves the key/value agreement invariant. -/
theorem goodState_recordSessionEnd (env : Env) (st : MState) (sid : String)
    (h : goodState st) : goodState (recordSessionEnd env st sid).1 := by
  unfold recordSessionEnd
  split
  · exact h
  · dsimp only
    split
    · exact h
    · exact goodState_eraseSession sid h

/-- The new-session loop preserves the key/value agreement invariant. -/
theorem goodState_detectNew (env : Env) (m : Monitor)
    (cur : List (String × RawSession)) :
    ∀ st : MState, goodState st → goodState (detectNew env m st cur).1 := by
  induction cur with
  | nil => intro st h; exact h
  | cons hd tl ih =>
    intro st h
    obtain ⟨k, raw⟩ := hd
    unfold detectNew
    split
    · exact ih st h
    · exact ih _ (goodState_recordSessionStart env m st raw h)

/-- The ended-session loop preserves the key/value agreement invariant. -/
theorem goodState_endSessions (env : Env) (ended : List String) :
    ∀ st : MState, goodState st → goodState (endSessions env st ended).1 := by
  induction ended with
  | nil => intro st h; exact h
  | cons hd tl ih =>
    intro st h
    exact ih _ (goodState_recordSessionEnd env st hd h)

/-- Whitelist membership from the raw configured names: a name that strips
to something nonempty contributes its stripped, lowered form. -/
theorem mem_mkWhitelist {names : List String} {entry : String}
    (h : entry ∈ names) (hne : pyStrip entry ≠ "") :
    pyLower (pyStrip entry) ∈ mkWhitelist names := by
  unfold mkWhitelist
  refine List.mem_map_of_mem _ ?_
  rw [List.mem_filter]
  exact ⟨h, by simpa using hne⟩

end Helpers

/-- C4: a failing fetch of active sessions aborts the tick with no partial
diff — `active_sessions` is returned unchanged and no start or end record
(indeed no collaborator call at all) happens during that tick. -/
theorem C4_failed_fetch_no_diff (env : Env) (m : Monitor) (st : MState) :
    processSessions env m st (Except.error ()) = (st, []) := rfl

/-- C7 counterexample: the claim says only a `KeyboardInterrupt` ever stops
the scheduler loop and that any exception during tick processing or the
sleep lets the loop proceed; but the `try/except` of `run` wraps the whole
`while`, so an `Exception` escaping the loop body (e.g. raised by
`time.sleep`) terminates the loop through the handler at line 200 after
zero further iterations. -/
theorem C7_loop_exception_counterexample :
    runLoop [IterEvent.raiseExc, IterEvent.normal] = (0, StopReason.abnormal) ∧
    StopReason.abnormal ≠ StopReason.shutdown := by decide

/-- C7 amended: exceptions raised inside `process_sessions` are caught there
(a failed tick is a `normal` iteration) and the loop continues; but an
exception escaping the loop body — e.g. from `time.sleep` or the per-tick
config lookup — terminates the loop via `except Exception` (logging an
abnormal-termination message) rather than proceeding; a `KeyboardInterrupt`
terminates it via its own handler with the shutdown message. -/
theorem C7_loop_behaviour_amended (evs : List IterEvent) :
    runLoop (IterEvent.normal :: evs) =
      ((runLoop evs).1 + 1, (runLoop evs).2) ∧
    runLoop (IterEvent.raiseExc :: evs) = (0, StopReason.abnormal) ∧
    runLoop (IterEvent.raiseInterrupt :: evs) = (0, StopReason.shutdown) :=
  ⟨rfl, rfl, rfl⟩

/-- C9: a fetched session missing a required field (`Id` or `UserId`) is
skipped entirely: `_record_session_start` leaves the map unchanged and makes
no collaborator call (the `KeyError` is caught inside the handler, so
nothing propagates), and the new-session loop processes the remaining
fetched sessions exactly as it would without the bad one. -/
theorem C9_missing_field_skip (env : Env) (m : Monitor) (st : MState)
    (raw : RawSession) (k : String) (rest : List (String × RawSession))
    (hmiss : raw.Id = none ∨ raw.UserId = none)
    (hnew : lookupSession st k = none) :
    recordSessionStart env m st raw = (st, []) ∧
    detectNew env m st ((k, raw) :: rest) = detectNew env m st rest := by
  have h1 : recordSessionStart env m st raw = (st, []) := by
    cases huid : raw.UserId with
    | none => simp [recordSessionStart, huid]
    | some uid =>
      have hid : raw.Id = none := by
        rcases hmiss with h | h
        · exact h
        · rw [huid] at h; cases h
      cases henv : env.getUserInfo uid with
      | error e => simp [recordSessionStart, huid, henv]
      | ok nameOpt =>
        by_cases hwl : pyLower (pyStrip (nameOpt.getD "未知用户")) ∈ m.whitelist
        · simp [recordSessionStart, huid, henv, hwl]
        · simp [recordSessionStart, huid, henv, hwl, hid]
  refine ⟨h1, ?_⟩
  simp [detectNew, hnew, h1]

/-- C9 witness: a concrete fetched record with no `UserId` is skipped with
the map left empty and no events. -/
theorem C9_missing_field_skip_witness :
    rawNoUser.UserId = none ∧
    recordSessionStart envBase mBase [] rawNoUser = ([], []) :=
  ⟨rfl, (C9_missing_field_skip envBase mBase [] rawNoUser "sX" []
    (Or.inr rfl) rfl).1⟩

/-- C10: the key/value agreement invariant of `active_sessions` — every
stored record's `session_id` equals its map key — is preserved by a whole
tick, whatever the fetch result: the only map mutations are insertion of a
freshly built record keyed by its own `session['Id']` and deletion of a
whole entry. -/
theorem C10_key_invariant_preserved (env : Env) (m : Monitor) (st : MState)
    (fetch : Except Unit (List (String × RawSession))) (h : goodState st) :
    goodState (processSessions env m st fetch).1 := by
  cases fetch with
  | error e => exact h
  | ok cur =>
    unfold processSessions detectEnded
    dsimp only
    exact goodState_endSessions env _ _ (goodState_detectNew env m cur st h)

/-- C10 witness: the invariant holds initially and after a concrete tick
that inserts a session. -/
theorem C10_key_invariant_preserved_witness :
    goodState ([] : MState) ∧
    goodState (processSessions envBase mBase []
      (Except.ok [("s1", rawS1)])).1 :=
  ⟨by decide, C10_key_invariant_preserved envBase mBase []
    (Except.ok [("s1", rawS1)]) (by decide)⟩

/-- C6 counterexample: with the smallest validated threshold
`alert_threshold = 1` and alerting enabled, a user whose sessions all share
one identical IP does get an alert: the very first session of `u1` at
`1.1.1.1` (every session of `u1` in the resulting map has that one IP)
already triggers `_trigger_alert`, because `0 >= 1 - 1`. -/
theorem C6_threshold_one_counterexample :
    (1 : Int) ≤ mThresh1.alert_threshold ∧
    mThresh1.alerts_enabled = true ∧
    (∀ q ∈ (recordSessionStart envBase mThresh1 [] rawS1).1,
      (Prod.snd q).user_id = "u1" → (Prod.snd q).ip = "1.1.1.1") ∧
    Event.alertTriggered "u1" "1.1.1.1" 1 ∈
      (recordSessionStart envBase mThresh1 [] rawS1).2 := by decide

/-- C6 amended: with `alert_threshold >= 2`, a user all of whose active
sessions share one identical IP never triggers an alert, regardless of how
many such sessions exist: the set of other distinct IPs is empty, and
`0 >= alert_threshold - 1` fails. -/
theorem C6_same_ip_no_alert_amended (env : Env) (m : Monitor) (st : MState)
    (uid p : String) (hth : (2 : Int) ≤ m.alert_threshold)
    (hsame : ∀ q ∈ st, (Prod.snd q).user_id = uid → (Prod.snd q).ip = p) :
    checkLoginAbnormality env m st uid p = [] := by
  have hfil : List.filter (fun s => decide (s.user_id = uid ∧ s.ip ≠ p))
      (st.map Prod.snd) = [] := by
    rw [List.filter_eq_nil_iff]
    intro s hs
    rcases List.mem_map.mp hs with ⟨q, hq, rfl⟩
    simp only [decide_eq_true_eq, not_and, ne_eq, Decidable.not_not]
    exact hsame q hq
  have hzero : distinctOtherIPs st uid p = 0 := by
    unfold distinctOtherIPs userOtherIps
    rw [hfil]
    rfl
  cases hen : m.alerts_enabled with
  | false => simp [checkLoginAbnormality, hen]
  | true =>
    have hlt : ¬ ((distinctOtherIPs st uid p : Int) ≥ m.alert_threshold - 1) := by
      rw [hzero]
      push_cast
      omega
    simp [checkLoginAbnormality, hen, hlt]

/-- C6 witness: two sessions of `u1` both at `1.1.1.1`, threshold 2 —
the check emits nothing. -/
theorem C6_same_ip_no_alert_amended_witness :
    ((2 : Int) ≤ mBase.alert_threshold ∧
      (∀ q ∈ ([("s2", dS2), ("s2b", dS2b)] : MState),
        (Prod.snd q).user_id = "u1" → (Prod.snd q).ip = "1.1.1.1")) ∧
    checkLoginAbnormality envBase mBase [("s2", dS2), ("s2b", dS2b)]
      "u1" "1.1.1.1" = [] :=
  ⟨⟨by decide, by decide⟩,
    C6_same_ip_no_alert_amended envBase mBase [("s2", dS2), ("s2b", dS2b)]
      "u1" "1.1.1.1" (by decide) (by decide)⟩

/-- C2 counterexample: the claim says a failing `db.record_session_start`
still lets the session be inserted into `active_sessions` and the
concurrency check run; but the database call at line 78 precedes the
insertion at line 79 inside one `try`, so when it raises, the handler at
line 86 is reached with the map unchanged and no check run: here the trace
holds only the failed persistence call, no `alertTriggered`, and `s1` is
not in the map. -/
theorem C2_persist_failure_counterexample :
    envStartFail.recordStartFails "s1" = true ∧
    recordSessionStart envStartFail mBase [] rawS1 =
      ([], [Event.recordStartCall "s1"
        (mkSessionData envStartFail rawS1 "s1" "u1" "alice" "1.1.1.1")]) ∧
    lookupSession (recordSessionStart envStartFail mBase [] rawS1).1 "s1" =
      none := by decide

/-- C2 amended: when `db.record_session_start` raises for a newly discovered
non-whitelisted session, the failure is caught inside the handler (the tick
continues, and the rest of the fetch is processed from an unchanged map),
but the session is NOT inserted into `active_sessions` and the
concurrency-abnormality check does not run for it; it will be re-detected as
new on the next tick. -/
theorem C2_persist_failure_amended (env : Env) (m : Monitor) (st : MState)
    (raw : RawSession) (sid uid k : String) (nameOpt : Option String)
    (rest : List (String × RawSession))
    (hid : raw.Id = some sid) (huid : raw.UserId = some uid)
    (hres : env.getUserInfo uid = Except.ok nameOpt)
    (hwl : pyLower (pyStrip (nameOpt.getD "未知用户")) ∉ m.whitelist)
    (hdb : env.recordStartFails sid = true)
    (hnew : lookupSession st k = none) :
    recordSessionStart env m st raw =
      (st, [Event.recordStartCall sid
        (mkSessionData env raw sid uid (pyStrip (nameOpt.getD "未知用户"))
          (extractIp raw.RemoteEndPoint))]) ∧
    (detectNew env m st ((k, raw) :: rest)).1 = (detectNew env m st rest).1 := by
  have h1 : recordSessionStart env m st raw =
      (st, [Event.recordStartCall sid
        (mkSessionData env raw sid uid (pyStrip (nameOpt.getD "未知用户"))
          (extractIp raw.RemoteEndPoint))]) := by
    simp [recordSessionStart, huid, hres, hwl, hid, hdb]
  refine ⟨h1, ?_⟩
  simp [detectNew, hnew, h1]

/-- C2 amended witness: a failing start-record persistence for `s1` leaves a
nonempty pre-existing map exactly as it was. -/
theorem C2_persist_failure_amended_witness :
    envStartFail.recordStartFails "s1" = true ∧
    (recordSessionStart envStartFail mBase [("s0", dS0)] rawS1).1 =
      [("s0", dS0)] :=
  ⟨rfl, congrArg Prod.fst (C2_persist_failure_amended envStartFail mBase
    [("s0", dS0)] rawS1 "s1" "u1" "s1" (some "alice") [] rfl rfl rfl
    (by decide) rfl (by decide)).1⟩

/-- C8 counterexample: the claim says a session absent from the fetch is
removed from `active_sessions` even when `db.record_session_end` raises; but
the `del` at line 98 comes after the database call at line 96 inside one
`try`, so when the call raises the session stays in the map. -/
theorem C8_end_persist_failure_counterexample :
    lookupSession [("s0", dS0)] "s0" = some dS0 ∧
    envEndFail.recordEndFails "s0" = true ∧
    recordSessionEnd envEndFail [("s0", dS0)] "s0" =
      ([("s0", dS0)], [Event.recordEndCall "s0" 50]) ∧
    lookupSession (recordSessionEnd envEndFail [("s0", dS0)] "s0").1 "s0" =
      some dS0 := by decide

/-- C8 amended: `_record_session_end` on an id absent from the map is a
no-op rather than an error; on a present id it removes the entry only when
`db.record_session_end` does not raise — a raising call is caught and
logged, and the session then remains in the map (to be retried on a later
tick). -/
theorem C8_end_removal_amended (env : Env) (st : MState) (sid : String) :
    (lookupSession st sid = none → recordSessionEnd env st sid = (st, [])) ∧
    (∀ d, lookupSession st sid = some d → env.recordEndFails sid = true →
      (recordSessionEnd env st sid).1 = st ∧
      lookupSession (recordSessionEnd env st sid).1 sid = some d) ∧
    (∀ d, lookupSession st sid = some d → env.recordEndFails sid = false →
      (recordSessionEnd env st sid).1 = eraseSession st sid ∧
      lookupSession (recordSessionEnd env st sid).1 sid = none) := by
  refine ⟨?_, ?_, ?_⟩
  · intro h
    simp [recordSessionEnd, h]
  · intro d hd hf
    refine ⟨?_, ?_⟩ <;> simp [recordSessionEnd, hd, hf]
  · intro d hd hf
    refine ⟨?_, ?_⟩ <;>
      simp [recordSessionEnd, hd, hf, lookupSession_eraseSession]

/-- C8 witness: a successful end-record for `s0` removes it; an end for an
absent id is a no-op. -/
theorem C8_end_removal_amended_witness :
    lookupSession [("s0", dS0)] "s0" = some dS0 ∧
    lookupSession (recordSessionEnd envBase [("s0", dS0)] "s0").1 "s0" =
      none ∧
    recordSessionEnd envBase [] "sZ" = ([], []) :=
  ⟨by decide,
    ((C8_end_removal_amended envBase [("s0", dS0)] "s0").2.2 dS0
      (by decide) (by decide)).2,
    (C8_end_removal_amended envBase [] "sZ").1 (by decide)⟩

/-- C3: a session whose resolved username, once trimmed, matches a
(nonempty, itself trimmed) whitelist entry case-insensitively produces
nothing: `_record_session_start` returns before any persistence call or map
insertion, and `_trigger_alert`'s own re-check returns before the alert
message, the disable call, the security log and any notification. -/
theorem C3_whitelist_protected (env : Env) (m : Monitor) (st : MState)
    (raw : RawSession) (names : List String) (entry uid ip : String)
    (nameOpt : Option String) (c : Nat)
    (hwl : m.whitelist = mkWhitelist names)
    (hentry : entry ∈ names) (hne : pyStrip entry ≠ "")
    (huid : raw.UserId = some uid)
    (hres : env.getUserInfo uid = Except.ok nameOpt)
    (hmatch : pyLower (pyStrip (nameOpt.getD "未知用户")) =
      pyLower (pyStrip entry)) :
    recordSessionStart env m st raw = (st, []) ∧
    triggerAlert env m uid ip c = [] := by
  have hmem : pyLower (pyStrip (nameOpt.getD "未知用户")) ∈ m.whitelist := by
    rw [hwl, hmatch]
    exact mem_mkWhitelist hentry hne
  constructor
  · simp [recordSessionStart, huid, hres, hmem]
  · simp [triggerAlert, hres, hmem]

/-- C3 witness: username ` aDmIn  ` resolved for `u1` matches whitelist
entry `  Admin ` after trimming, case-insensitively, and both the discovery
path and the alert path produce nothing. -/
theorem C3_whitelist_protected_witness :
    pyLower (pyStrip " aDmIn  ") = pyLower (pyStrip "  Admin ") ∧
    recordSessionStart envAdmin mWhite [] rawS1 = ([], []) ∧
    triggerAlert envAdmin mWhite "u1" "1.1.1.1" 2 = [] :=
  ⟨by decide,
    (C3_whitelist_protected envAdmin mWhite [] rawS1 ["  Admin "]
      "  Admin " "u1" "1.1.1.1" (some " aDmIn  ") 2 rfl (by decide)
      (by decide) rfl rfl (by decide)).1,
    (C3_whitelist_protected envAdmin mWhite [] rawS1 ["  Admin "]
      "  Admin " "u1" "1.1.1.1" (some " aDmIn  ") 2 rfl (by decide)
      (by decide) rfl rfl (by decide)).2⟩

/-- C5 counterexample: the claim says that on confirmed disable success the
security-log entry is persisted AND the webhook is invoked; but `monitor.py`
never calls `WebhookNotifier.send_ban_notification` on any path: here
auto-disable is on, `disable_user` returns `True`, the security-log call
with action `DISABLE` happens, yet the trace holds no webhook call. -/
theorem C5_no_webhook_counterexample :
    mAuto.auto_disable = true ∧
    envDisableOk.disableUser "u1" = true ∧
    triggerAlert envDisableOk mAuto "u1" "2.2.2.2" 2 =
      [Event.alertLogged "alice" "2.2.2.2" 2,
       Event.disableCall "u1" true,
       Event.securityLogCall "u1" "alice" "2.2.2.2" 2 "DISABLE"] ∧
    (∀ e ∈ triggerAlert envDisableOk mAuto "u1" "2.2.2.2" 2,
      isWebhookCall e = false) := by decide

/-- C5 amended: in `_trigger_alert` for a non-whitelisted user, when
auto-disable is enabled and `disable_user` returns confirmed success, the
security-log call with action `DISABLE` is made and the alert message is
logged; when disable returns failure or auto-disable is off, no security-log
call is made while the alert message is still logged; and no webhook
notification is ever sent by this path (the webhook notifier is not invoked
by the monitor). -/
theorem C5_disable_gating_amended (env : Env) (m : Monitor) (uid ip : String)
    (c : Nat) (nameOpt : Option String)
    (hres : env.getUserInfo uid = Except.ok nameOpt)
    (hwl : pyLower (pyStrip (nameOpt.getD "未知用户")) ∉ m.whitelist) :
    (m.auto_disable = true → env.disableUser uid = true →
      triggerAlert env m uid ip c =
        [Event.alertLogged (pyStrip (nameOpt.getD "未知用户")) ip c,
         Event.disableCall uid true,
         Event.securityLogCall uid (pyStrip (nameOpt.getD "未知用户")) ip c
           "DISABLE"]) ∧
    (m.auto_disable = true → env.disableUser uid = false →
      triggerAlert env m uid ip c =
        [Event.alertLogged (pyStrip (nameOpt.getD "未知用户")) ip c,
         Event.disableCall uid false]) ∧
    (m.auto_disable = false →
      triggerAlert env m uid ip c =
        [Event.alertLogged (pyStrip (nameOpt.getD "未知用户")) ip c]) ∧
    (∀ e ∈ triggerAlert env m uid ip c, isWebhookCall e = false) := by
  refine ⟨?_, ?_, ?_, no_webhook_in_triggerAlert env m uid ip c⟩
  · intro had hok
    simp [triggerAlert, hres, hwl, had, hok]
  · intro had hok
    simp [triggerAlert, hres, hwl, had, hok]
  · intro had
    simp [triggerAlert, hres, hwl, had]

/-- C5 witness: with auto-disable on and a failing disable, the alert is
logged and nothing else happens. -/
theorem C5_disable_gating_amended_witness :
    mAuto.auto_disable = true ∧ envBase.disableUser "u1" = false ∧
    triggerAlert envBase mAuto "u1" "2.2.2.2" 2 =
      [Event.alertLogged (pyStrip ((some "alice").getD "未知用户")) "2.2.2.2" 2,
       Event.disableCall "u1" false] :=
  ⟨rfl, rfl,
    (C5_disable_gating_amended envBase mAuto "u1" "2.2.2.2" 2 (some "alice")
      rfl (by decide)).2.1 rfl rfl⟩

/-- C1: for a newly recorded, non-whitelisted session of user `uid` at IP
`p` whose required fields are present and whose start-record persistence
does not raise, `_trigger_alert` is invoked if and only if alerting is
enabled and the number of distinct other IPs of that user's active sessions
is at least `alert_threshold - 1`, and the session count passed to it is
that number plus one. -/
theorem C1_alert_iff_distinct_threshold (env : Env) (m : Monitor)
    (st st' : MState) (raw : RawSession) (sid uid p : String)
    (nameOpt : Option String) (dcnt : Nat)
    (hid : raw.Id = some sid) (huid : raw.UserId = some uid)
    (hres : env.getUserInfo uid = Except.ok nameOpt)
    (hwl : pyLower (pyStrip (nameOpt.getD "未知用户")) ∉ m.whitelist)
    (hdb : env.recordStartFails sid = false)
    (hp : p = extractIp raw.RemoteEndPoint)
    (hst : st' = insertSession st sid
      (mkSessionData env raw sid uid (pyStrip (nameOpt.getD "未知用户")) p))
    (hd : dcnt = distinctOtherIPs st' uid p) :
    ((∃ c, Event.alertTriggered uid p c ∈
        (recordSessionStart env m st raw).2) ↔
      (m.alerts_enabled = true ∧ (dcnt : Int) ≥ m.alert_threshold - 1)) ∧
    (∀ c, Event.alertTriggered uid p c ∈
        (recordSessionStart env m st raw).2 → c = dcnt + 1) := by
  subst hp hst hd
  have hev : (recordSessionStart env m st raw).2 =
      Event.recordStartCall sid (mkSessionData env raw sid uid
        (pyStrip (nameOpt.getD "未知用户")) (extractIp raw.RemoteEndPoint)) ::
      checkLoginAbnormality env m
        (insertSession st sid (mkSessionData env raw sid uid
          (pyStrip (nameOpt.getD "未知用户")) (extractIp raw.RemoteEndPoint)))
        uid (extractIp raw.RemoteEndPoint) := by
    simp [recordSessionStart, huid, hres, hwl, hid, hdb]
  rw [hev]
  constructor
  · constructor
    · rintro ⟨c, hc⟩
      rcases List.mem_cons.mp hc with h | h
      · simp at h
      · have h2 := (alertTriggered_mem_check_iff env m _ uid _ c).mp h
        exact ⟨h2.1, h2.2.1⟩
    · rintro ⟨hen, hge⟩
      refine ⟨distinctOtherIPs (insertSession st sid (mkSessionData env raw
        sid uid (pyStrip (nameOpt.getD "未知用户"))
        (extractIp raw.RemoteEndPoint))) uid (extractIp raw.RemoteEndPoint)
        + 1, ?_⟩
      exact List.mem_cons_of_mem _
        ((alertTriggered_mem_check_iff env m _ uid _ _).mpr ⟨hen, hge, rfl⟩)
  · intro c hc
    rcases List.mem_cons.mp hc with h | h
    · simp at h
    · exact ((alertTriggered_mem_check_iff env m _ uid _ c).mp h).2.2

/-- C1 witness: user `u1` already active at `9.9.9.9`, new session at
`1.1.1.1`, threshold 2, alerting on — one other distinct IP reaches the
threshold and the alert marker is in the trace. -/
theorem C1_alert_iff_distinct_threshold_witness :
    mBase.alerts_enabled = true ∧
    ((1 : Int) ≥ mBase.alert_threshold - 1) ∧
    (∃ c, Event.alertTriggered "u1" "1.1.1.1" c ∈
      (recordSessionStart envBase mBase [("s0", dS0)] rawS1).2) := by
  refine ⟨rfl, by decide, ?_⟩
  have h := C1_alert_iff_distinct_threshold envBase mBase [("s0", dS0)] _
    rawS1 "s1" "u1" "1.1.1.1" (some "alice") 1 rfl rfl rfl (by decide) rfl
    (by decide) rfl (by decide)
  exact h.1.mpr ⟨rfl, by decide⟩

end EmbyIPLimit
